import Mathlib

/-!
Shallow embedding of the CrystalSwap module of StarLabs-Monad
(src/model/crystal_swap/instance.py, src/model/crystal_swap/constants.py,
src/model/crystal/crystal_swap.py).

Network effects (RPC calls) are modelled by environments: each field of an
environment record is the value the corresponding network call returns, with
`none` standing for the call raising an exception.  Python floats are
modelled by ℚ; Python `int(x)` truncation by `pyInt`.  To keep every
definition kernel-computable we use `mkRat`-based arithmetic (`pyMul`,
`pySub`, `pyDivN`, `pow10`) and prove that it agrees with the standard
operations on ℚ.
-/

namespace CrystalSwapModel

/-- Token descriptor, mirroring the entries of `AVAILABLE_TOKENS` in
`crystal_swap/constants.py`. -/
structure Token where
  name : String
  address : Option Nat
  decimals : Nat
  native : Bool
deriving Repr, DecidableEq

def ROUTER_CONTRACT : Nat := 0x64Aff7245EbdAAECAf266852139c67E4D8DBa4de
def WMON_CONTRACT : Nat := 0x760AfE86e5de5fa0Ee542fc7B7B713e1c5425701
def USDC_CONTRACT : Nat := 0xf817257fed379853cde0fa4f97ab987181b1e5ea

def MON : Token := { name := "MON", address := none, decimals := 18, native := true }

def USDC : Token :=
  { name := "USDC", address := some USDC_CONTRACT, decimals := 6, native := false }

/-- The token registry `AVAILABLE_TOKENS` of `crystal_swap/constants.py`. -/
def AVAILABLE_TOKENS : String → Option Token
  | "MON" => some MON
  | "USDC" => some USDC
  | _ => none

/-- Kernel-computable multiplication on ℚ. -/
def pyMul (a b : ℚ) : ℚ := mkRat (a.num * b.num) (a.den * b.den)

/-- Kernel-computable subtraction on ℚ. -/
def pySub (a b : ℚ) : ℚ := mkRat (a.num * b.den - b.num * a.den) (a.den * b.den)

/-- Kernel-computable division of a rational by a natural number. -/
def pyDivN (a : ℚ) (d : Nat) : ℚ := mkRat a.num (a.den * d)

/-- `10 ** d` as a rational. -/
def pow10 (d : Nat) : ℚ := mkRat (Int.ofNat (10 ^ d)) 1

/-- Python `int(x)`: truncation toward zero.  Since the denominator is
positive, this is truncated integer division of numerator by denominator. -/
def pyInt (q : ℚ) : ℤ := q.num.tdiv q.den

/-- `Web3.to_hex(tx_hash)`: a hexadecimal string with mandatory `0x` prefix. -/
def toHex (n : Nat) : String := "0x" ++ (Nat.toDigits 16 n).asString

theorem num_eq_mul_den (a : ℚ) : (a.num : ℚ) = a * a.den := by
  have ha : ((a.den : ℚ)) ≠ 0 := by positivity
  exact (div_eq_iff ha).1 (Rat.num_div_den a)

theorem pyMul_eq (a b : ℚ) : pyMul a b = a * b := by
  rw [pyMul, Rat.mkRat_eq_divInt, Rat.divInt_eq_div]
  push_cast
  rw [div_eq_iff (by positivity), num_eq_mul_den, num_eq_mul_den]
  ring

theorem pySub_eq (a b : ℚ) : pySub a b = a - b := by
  rw [pySub, Rat.mkRat_eq_divInt, Rat.divInt_eq_div]
  push_cast
  rw [div_eq_iff (by positivity), num_eq_mul_den, num_eq_mul_den]
  ring

theorem pyDivN_eq (a : ℚ) (d : Nat) : pyDivN a d = a / d := by
  rcases Nat.eq_zero_or_pos d with h | h
  · simp [pyDivN, h]
  · have hd : ((d : ℚ)) ≠ 0 := Nat.cast_ne_zero.2 h.ne'
    rw [pyDivN, Rat.mkRat_eq_divInt, Rat.divInt_eq_div]
    push_cast
    rw [div_eq_div_iff (by positivity) (by positivity), num_eq_mul_den]
    ring

theorem pow10_eq (d : Nat) : pow10 d = (10 : ℚ) ^ d := by
  rw [pow10, Rat.mkRat_one, Int.ofNat_eq_natCast]
  push_cast
  ring

example : pyInt (mkRat 7 2) = 3 := by decide
example : pyMul (mkRat 3 1) (mkRat 25 10) = mkRat 15 2 := by decide
example : toHex 255 = "0xff" := by rfl

/-! ## Balance query (`CrystalSwap.get_token_balance` in `crystal_swap/instance.py`)

The environment `f` gives, for each retry index, the raw wei amount the RPC
query returns, or `none` when the query raises.  The source loops
`while retries <= max_retries` with `max_retries = 15`, so the query is
attempted at retry indices `0..15` (16 tries), and returns `0` after all of
them failed. -/

/-- One balance query result converted to human units
(`Web3.from_wei(_, "ether")` for the native token, `balance_wei / 10 **
token["decimals"]` otherwise; both are division by `10 ** decimals`). -/
def weiToHuman (token : Token) (wei : Nat) : ℚ :=
  pyDivN (mkRat (Int.ofNat wei) 1) (10 ^ token.decimals)

def getBalanceGo (token : Token) (f : Nat → Option Nat) : Nat → Nat → ℚ
  | _, 0 => 0
  | retries, fuel + 1 =>
    match f retries with
    | some wei => weiToHuman token wei
    | none => getBalanceGo token f (retries + 1) fuel

/-- `CrystalSwap.get_token_balance` of `crystal_swap/instance.py`. -/
def get_token_balance (token : Token) (f : Nat → Option Nat) : ℚ :=
  getBalanceGo token f 0 16

/-! ## Allowance check and approval
(`CrystalSwap.check_allowance` / `CrystalSwap.approve_token` in
`crystal_swap/instance.py`). -/

/-- `CrystalSwap.check_allowance`: `current_allowance >= amount_wei`. -/
def check_allowance (current_allowance : Nat) (amount_wei : ℤ) : Bool :=
  amount_wei ≤ (current_allowance : ℤ)

/-- Environment for one run of `approve_token`: the result of each network
call it makes, `none` meaning the call raises. -/
structure ApproveEnv where
  allowance : Option Nat
  gasParams : Option Nat
  nonce : Option Nat
  estimateGas : Option Nat
  sendHash : Option Nat
  receiptStatus : Option Nat
deriving Repr, DecidableEq

deriving instance DecidableEq for Except

/-- Observable trace of one run of `approve_token`:  how many
`send_raw_transaction` calls were issued, the amount passed to the ERC20
`approve` call when the approval transaction was built, whether
`wait_for_transaction_receipt` returned, and the Python return value
(`.error` = an exception propagated to the caller). -/
structure ApproveTrace where
  broadcasts : Nat
  approveAmount : Option Nat
  awaitedReceipt : Bool
  result : Except String (Option String)
deriving Repr, DecidableEq

/-- `CrystalSwap.approve_token` of `crystal_swap/instance.py`.  Returns
`None` for a native token or a sufficient allowance; otherwise builds
`approve(spender, 2**256 - 1)`, broadcasts it and awaits its receipt,
returning the hash on status 1 and `None` otherwise. -/
def approve_token (token : Token) (amount_wei : ℤ) (env : ApproveEnv) : ApproveTrace :=
  if token.native then
    ⟨0, none, false, .ok none⟩
  else
    match env.allowance with
    | none => ⟨0, none, false, .error "allowance query raised"⟩
    | some al =>
      if check_allowance al amount_wei then
        ⟨0, none, false, .ok none⟩
      else
        let amt : Nat := 2 ^ 256 - 1
        match env.gasParams with
        | none => ⟨0, some amt, false, .error "get_gas_params raised"⟩
        | some _ =>
          match env.nonce with
          | none => ⟨0, some amt, false, .error "get_transaction_count raised"⟩
          | some _ =>
            match env.estimateGas with
            | none => ⟨0, some amt, false, .error "estimate_gas raised"⟩
            | some _ =>
              match env.sendHash with
              | none => ⟨0, some amt, false, .error "send_raw_transaction raised"⟩
              | some h =>
                match env.receiptStatus with
                | none => ⟨1, some amt, false, .error "wait_for_transaction_receipt raised"⟩
                | some s =>
                  if s = 1 then ⟨1, some amt, true, .ok (some (toHex h))⟩
                  else ⟨1, some amt, true, .ok none⟩

/-- Observable trace of one run of `approve_usdc` of
`crystal/crystal_swap.py`, whose Python return value is a boolean and whose
exceptions are all caught inside the function. -/
structure CApproveTrace where
  broadcasts : Nat
  approveAmount : Option Nat
  awaitedReceipt : Bool
  result : Bool
deriving Repr, DecidableEq

/-- `CrystalSwap.approve_usdc` of `crystal/crystal_swap.py`.  Same approval
amount `2**256 - 1`; every exception is caught and turned into `False`;
`estimate_gas` of this variant never raises (it falls back to `200000`). -/
def approve_usdc (amount_wei : ℤ) (env : ApproveEnv) : CApproveTrace :=
  match env.allowance with
  | none => ⟨0, none, false, false⟩
  | some al =>
    if amount_wei ≤ (al : ℤ) then
      ⟨0, none, false, true⟩
    else
      let amt : Nat := 2 ^ 256 - 1
      match env.nonce with
      | none => ⟨0, some amt, false, false⟩
      | some _ =>
        match env.gasParams with
        | none => ⟨0, some amt, false, false⟩
        | some _ =>
          match env.sendHash with
          | none => ⟨0, some amt, false, false⟩
          | some _ =>
            match env.receiptStatus with
            | none => ⟨1, some amt, false, false⟩
            | some s =>
              if s = 1 then ⟨1, some amt, true, true⟩
              else ⟨1, some amt, true, false⟩

/-! ## The swap executor (`CrystalSwap.swap` in `crystal_swap/instance.py`) -/

/-- The dictionary `swap` returns (its Outcome). -/
structure Outcome where
  success : Bool
  tx_hash : Option String
  from_token : Option String
  to_token : Option String
  amount_in : Option ℚ
  expected_out : Option ℚ
  error : Option String
deriving Repr, DecidableEq

/-- How one iteration of the retry loop ends: a returned success dictionary,
an on-chain revert (`receipt["status"] != 1`, handled by `continue`), or a
caught exception. -/
inductive AttemptResult where
  | success (o : Outcome)
  | reverted
  | exc (msg : String)
deriving Repr, DecidableEq

def AttemptResult.isSuccess : AttemptResult → Bool
  | .success _ => true
  | _ => false

/-- Environment for one iteration of the retry loop of `swap`: the result of
each network call, in program order; `none` means the call raises. -/
structure AttemptEnv where
  balance : ℚ
  quote : Option (List Nat)
  approveEnv : ApproveEnv
  gasParams : Option Nat
  nonce : Option Nat
  estimateGas : Option Nat
  sendHash : Option Nat
  receiptStatus : Option Nat
  gasUsed : Nat
deriving Repr, DecidableEq

/-- Observable trace of one iteration of the retry loop of `swap`. -/
structure AttemptTrace where
  result : AttemptResult
  broadcasts : Nat
  swapMinOut : Option ℤ
  approveBroadcast : Bool
deriving Repr, DecidableEq

/-- One iteration of the retry loop of `CrystalSwap.swap`
(`crystal_swap/instance.py`), following the source order: token lookup,
balance re-check (raising `ValueError` when short), base-unit conversion,
`getAmountsOut` quote, `min_amount_out = int(expected_out * (1 - slippage /
100))`, approval for a non-native source (its return value is ignored),
gas parameters, nonce, gas estimate, sign/broadcast, receipt await. -/
def run_attempt (token_from token_to : String) (amount slippage : ℚ)
    (env : AttemptEnv) : AttemptTrace :=
  match AVAILABLE_TOKENS token_from, AVAILABLE_TOKENS token_to with
  | some token_a, some token_b =>
    if env.balance < amount then
      ⟨.exc "Insufficient balance", 0, none, false⟩
    else
      let amount_in_wei : ℤ :=
        if token_a.native then pyInt (pyMul amount (pow10 18))
        else pyInt (pyMul amount (pow10 token_a.decimals))
      match env.quote with
      | none => ⟨.exc "getAmountsOut raised", 0, none, false⟩
      | some amounts_out =>
        match amounts_out.getLast? with
        | none => ⟨.exc "amounts_out is empty", 0, none, false⟩
        | some expected_out =>
          let min_amount_out : ℤ :=
            pyInt (pyMul (mkRat (Int.ofNat expected_out) 1)
              (pySub (mkRat 1 1) (pyDivN slippage 100)))
          let apTrace : ApproveTrace :=
            if token_a.native then ⟨0, none, false, .ok none⟩
            else approve_token token_a amount_in_wei env.approveEnv
          let apBc : Bool := apTrace.broadcasts != 0
          match apTrace.result with
          | .error msg => ⟨.exc msg, apTrace.broadcasts, none, apBc⟩
          | .ok _ =>
            match env.gasParams with
            | none => ⟨.exc "get_gas_params raised", apTrace.broadcasts, none, apBc⟩
            | some _ =>
              match env.nonce with
              | none =>
                ⟨.exc "get_transaction_count raised", apTrace.broadcasts,
                  some min_amount_out, apBc⟩
              | some _ =>
                match env.estimateGas with
                | none =>
                  ⟨.exc "estimate_gas raised", apTrace.broadcasts,
                    some min_amount_out, apBc⟩
                | some _ =>
                  match env.sendHash with
                  | none =>
                    ⟨.exc "send_raw_transaction raised", apTrace.broadcasts,
                      some min_amount_out, apBc⟩
                  | some h =>
                    match env.receiptStatus with
                    | none =>
                      ⟨.exc "wait_for_transaction_receipt raised",
                        apTrace.broadcasts + 1, some min_amount_out, apBc⟩
                    | some s =>
                      if s = 1 then
                        ⟨.success
                          { success := true
                            tx_hash := some (toHex h)
                            from_token := some token_a.name
                            to_token := some token_b.name
                            amount_in := some amount
                            expected_out := some (pyDivN
                              (mkRat (Int.ofNat expected_out) 1)
                              (10 ^ token_b.decimals))
                            error := none },
                          apTrace.broadcasts + 1, some min_amount_out, apBc⟩
                      else
                        ⟨.reverted, apTrace.broadcasts + 1, some min_amount_out, apBc⟩
  | _, _ => ⟨.exc "unknown token", 0, none, false⟩

/-- The dictionary returned after the retry loop of `swap` exhausts all
attempts without a success. -/
def maxRetryOutcome : Outcome :=
  { success := false, tx_hash := none, from_token := none, to_token := none,
    amount_in := none, expected_out := none, error := some "Max retry attempts reached" }

/-- Aggregate observation of a full `swap` call. -/
structure SwapStats where
  outcome : Outcome
  broadcasts : Nat
  sleeps : Nat
  attemptsUsed : Nat
deriving Repr, DecidableEq

/-- The retry loop of `CrystalSwap.swap` (`for retry in
range(config.SETTINGS.ATTEMPTS)`).  A revert `continue`s to the next
attempt without sleeping; a caught exception sleeps the randomized backoff
when `retry < ATTEMPTS - 1` (here: when further attempts remain). -/
def swapGo (token_from token_to : String) (amount slippage : ℚ) :
    Nat → List AttemptEnv → SwapStats
  | 0, _ => ⟨maxRetryOutcome, 0, 0, 0⟩
  | _ + 1, [] => ⟨maxRetryOutcome, 0, 0, 0⟩
  | n + 1, env :: rest =>
    let t := run_attempt token_from token_to amount slippage env
    match t.result with
    | .success o => ⟨o, t.broadcasts, 0, 1⟩
    | .reverted =>
      let s := swapGo token_from token_to amount slippage n rest
      ⟨s.outcome, t.broadcasts + s.broadcasts, s.sleeps, s.attemptsUsed + 1⟩
    | .exc _ =>
      let s := swapGo token_from token_to amount slippage n rest
      ⟨s.outcome, t.broadcasts + s.broadcasts,
        (if 0 < n then 1 else 0) + s.sleeps, s.attemptsUsed + 1⟩

/-- `CrystalSwap.swap` of `crystal_swap/instance.py`; `attempts` stands for
`config.SETTINGS.ATTEMPTS` and `envs` supplies the per-attempt network
results. -/
def swap (attempts : Nat) (token_from token_to : String) (amount slippage : ℚ)
    (envs : List AttemptEnv) : SwapStats :=
  swapGo token_from token_to amount slippage attempts envs

/-! ## The near-duplicate executor of `crystal/crystal_swap.py`
(`swap_mon_to_usdc`).  It performs no balance re-check and no
`getAmountsOut` quote; the router call is built with the constant `0` as
`amountOutMin`; a revert returns a failure dictionary immediately (no
retry); `estimate_gas` of this variant never raises. -/

structure CAttemptEnv where
  nonce : Option Nat
  gasParams : Option Nat
  estimateGas : Option Nat
  sendHash : Option Nat
  receiptStatus : Option Nat
deriving Repr, DecidableEq

/-- Trace of one iteration of the retry loop of `swap_mon_to_usdc`:
`routerMinOut` is the `amountOutMin` argument of the router call built by
this iteration, `quoteCalls` the number of `getAmountsOut` calls made. -/
structure CAttemptTrace where
  result : AttemptResult
  broadcasts : Nat
  routerMinOut : Option ℤ
  quoteCalls : Nat
deriving Repr, DecidableEq

/-- One iteration of the retry loop of `swap_mon_to_usdc`
(`crystal/crystal_swap.py`): the transaction data is built with
`swapExactETHForTokens(0, path, ...)` before the nonce and gas-parameter
calls; gas estimation falls back to `200000` instead of raising. -/
def c_attempt_mon_to_usdc (amount : ℚ) (env : CAttemptEnv) : CAttemptTrace :=
  let min_out : ℤ := 0
  match env.nonce with
  | none => ⟨.exc "get_transaction_count raised", 0, some min_out, 0⟩
  | some _ =>
    match env.gasParams with
    | none => ⟨.exc "get_gas_params raised", 0, some min_out, 0⟩
    | some _ =>
      match env.sendHash with
      | none => ⟨.exc "send_raw_transaction raised", 0, some min_out, 0⟩
      | some h =>
        match env.receiptStatus with
        | none => ⟨.exc "wait_for_transaction_receipt raised", 1, some min_out, 0⟩
        | some s =>
          if s = 1 then
            ⟨.success
              { success := true
                tx_hash := some (toHex h)
                from_token := some "MON"
                to_token := some "USDC"
                amount_in := some amount
                expected_out := none
                error := none },
              1, some min_out, 0⟩
          else ⟨.reverted, 1, some min_out, 0⟩

/-- `{"success": False, "error": "Transaction reverted"}`. -/
def revertedOutcome : Outcome :=
  { success := false, tx_hash := none, from_token := none, to_token := none,
    amount_in := none, expected_out := none, error := some "Transaction reverted" }

/-- `{"success": False, "error": "All attempts failed"}`. -/
def allFailedOutcome : Outcome :=
  { success := false, tx_hash := none, from_token := none, to_token := none,
    amount_in := none, expected_out := none, error := some "All attempts failed" }

structure CSwapStats where
  outcome : Outcome
  broadcasts : Nat
  sleeps : Nat
  attemptsUsed : Nat
  routerMinOut : Option ℤ
  quoteCalls : Nat
deriving Repr, DecidableEq

/-- The retry loop of `swap_mon_to_usdc`: a revert returns the failure
dictionary at once; a caught exception sleeps the backoff when further
attempts remain and retries. -/
def cSwapGo (amount : ℚ) : Nat → List CAttemptEnv → CSwapStats
  | 0, _ => ⟨allFailedOutcome, 0, 0, 0, none, 0⟩
  | _ + 1, [] => ⟨allFailedOutcome, 0, 0, 0, none, 0⟩
  | n + 1, env :: rest =>
    let t := c_attempt_mon_to_usdc amount env
    match t.result with
    | .success o => ⟨o, t.broadcasts, 0, 1, t.routerMinOut, t.quoteCalls⟩
    | .reverted => ⟨revertedOutcome, t.broadcasts, 0, 1, t.routerMinOut, t.quoteCalls⟩
    | .exc _ =>
      let s := cSwapGo amount n rest
      ⟨s.outcome, t.broadcasts + s.broadcasts,
        (if 0 < n then 1 else 0) + s.sleeps, s.attemptsUsed + 1,
        (match t.routerMinOut with | some m => some m | none => s.routerMinOut),
        t.quoteCalls + s.quoteCalls⟩

/-- `CrystalSwap.swap_mon_to_usdc` of `crystal/crystal_swap.py`. -/
def swap_mon_to_usdc (attempts : Nat) (amount : ℚ) (envs : List CAttemptEnv) : CSwapStats :=
  cSwapGo amount attempts envs

/-! ## Session loops -/

/-- `CrystalSwap._select_swap_pair` of `crystal_swap/instance.py`.  `choice`
is the value of `random.choice([True, False])` and `percent` the value of
`random.uniform(min_percent, max_percent)`.  The Python return value
`(None, None, 0)` is modelled by `none`. -/
def _select_swap_pair (mon_balance usdc_balance : ℚ) (choice : Bool) (percent : ℚ) :
    Option (String × String × ℚ) :=
  if mon_balance < mkRat 1 1000 ∧ usdc_balance < mkRat 1 100 then none
  else
    let swap_mon := choice && decide (mkRat 1 1000 ≤ mon_balance)
    if swap_mon then
      let amount := pyMul mon_balance (pyDivN percent 100)
      if amount < mkRat 1 1000 then none else some ("MON", "USDC", amount)
    else
      let amount := pyMul usdc_balance (pyDivN percent 100)
      if amount < mkRat 1 100 then none else some ("USDC", "MON", amount)

/-- Per-iteration environment of a session loop: the refreshed balances, the
random draws, and the success flag of the delegated swap. -/
structure IterEnv where
  mon_balance : ℚ
  usdc_balance : ℚ
  choice : Bool
  percent : ℚ
  swap_success : Bool
deriving Repr, DecidableEq

/-- Counts of delegated swap calls and of loop iterations actually run. -/
structure ExecStats where
  swaps : Nat
  iterations : Nat
deriving Repr, DecidableEq

/-- The swap loop of `CrystalSwap.execute` in `crystal_swap/instance.py`
(the length of `envs` plays the role of `num_swaps`).  An unsuitable pair
or a too-small amount (`amount <= 0.01`) skips the iteration with
`continue`; there is no early exit. -/
def execute_loop : List IterEnv → ExecStats
  | [] => ⟨0, 0⟩
  | e :: rest =>
    let r := execute_loop rest
    match _select_swap_pair e.mon_balance e.usdc_balance e.choice e.percent with
    | none => ⟨r.swaps, r.iterations + 1⟩
    | some (_, _, amount) =>
      if amount ≤ mkRat 1 100 then ⟨r.swaps, r.iterations + 1⟩
      else ⟨r.swaps + 1, r.iterations + 1⟩

/-- The swap loop of `CrystalSwap.execute` in `crystal/crystal_swap.py`:
when both balances are below their minimums the loop `break`s; a too-small
amount skips the iteration; otherwise the swap is delegated. -/
def crystal_execute_loop : List IterEnv → ExecStats
  | [] => ⟨0, 0⟩
  | e :: rest =>
    if e.mon_balance < mkRat 1 1000 ∧ e.usdc_balance < mkRat 1 100 then ⟨0, 1⟩
    else
      let swap_mon := e.choice && decide (mkRat 1 1000 ≤ e.mon_balance)
      let r := crystal_execute_loop rest
      if swap_mon then
        if pyMul e.mon_balance (pyDivN e.percent 100) < mkRat 1 1000 then
          ⟨r.swaps, r.iterations + 1⟩
        else ⟨r.swaps + 1, r.iterations + 1⟩
      else
        if pyMul e.usdc_balance (pyDivN e.percent 100) < mkRat 1 100 then
          ⟨r.swaps, r.iterations + 1⟩
        else ⟨r.swaps + 1, r.iterations + 1⟩

/-! ## Concrete environments used to instantiate the theorems -/

/-- An attempt environment whose every call succeeds and whose swap receipt
has status 1. -/
def envOK : AttemptEnv :=
  ⟨mkRat 2 1, some [5, 7], ⟨none, none, none, none, none, none⟩,
    some 1, some 0, some 21000, some 3, some 1, 0⟩

/-- An attempt environment whose swap receipt has status 0 (revert). -/
def envRevert : AttemptEnv :=
  ⟨mkRat 2 1, some [5, 7], ⟨none, none, none, none, none, none⟩,
    some 1, some 0, some 21000, some 3, some 0, 0⟩

/-- A non-native-source attempt environment: allowance 0, the approval
transaction is broadcast and its receipt has status 0 (approval reverted),
yet every later call succeeds and the swap receipt has status 1. -/
def envApproveRevert : AttemptEnv :=
  ⟨mkRat 2 1, some [5, 9], ⟨some 0, some 1, some 0, some 50000, some 11, some 0⟩,
    some 1, some 1, some 100000, some 12, some 1, 0⟩

/-- Like `envApproveRevert` but with a successful approval and a reverted
swap receipt. -/
def envApproveThenRevert : AttemptEnv :=
  ⟨mkRat 2 1, some [5, 9], ⟨some 0, some 1, some 0, some 50000, some 11, some 1⟩,
    some 1, some 1, some 100000, some 12, some 0, 0⟩

/-- A non-native-source attempt environment with a large pre-existing
allowance. -/
def envBigAllowance : AttemptEnv :=
  ⟨mkRat 2 1, some [5, 9], ⟨some (2 ^ 256 - 1), some 1, some 0, some 50000,
      some 11, some 1⟩,
    some 1, some 1, some 100000, some 12, some 1, 0⟩

/-- An attempt environment whose quote call raises. -/
def envExc : AttemptEnv :=
  ⟨mkRat 2 1, none, ⟨none, none, none, none, none, none⟩,
    some 1, some 0, some 21000, some 3, some 1, 0⟩

/-- An iteration environment with both balances below the minimums
(MON = 0.0005, USDC = 0.005). -/
def envLowIter : IterEnv := ⟨mkRat 1 2000, mkRat 1 200, true, mkRat 50 1, false⟩

/-- A crystal-variant attempt environment whose receipt has status 1. -/
def cEnvOK : CAttemptEnv := ⟨some 0, some 1, some 21000, some 3, some 1⟩

/-- A crystal-variant attempt environment whose receipt has status 0. -/
def cEnvRevert : CAttemptEnv := ⟨some 0, some 1, some 21000, some 3, some 0⟩

/-! ## Helper lemmas -/

theorem getBalanceGo_all_fail (token : Token) (f : Nat → Option Nat) :
    ∀ fuel r, (∀ k, k < fuel → f (r + k) = none) → getBalanceGo token f r fuel = 0 := by
  intro fuel
  induction fuel with
  | zero => intro r _; rfl
  | succ n ih =>
    intro r h
    have h0 : f r = none := by simpa using h 0 n.succ_pos
    simp only [getBalanceGo, h0]
    refine ih (r + 1) ?_
    intro k hk
    have h2 := h (k + 1) (by omega)
    rwa [show r + (k + 1) = r + 1 + k by omega] at h2

theorem approve_token_bc_amount (token : Token) (w : ℤ) (env : ApproveEnv) :
    (approve_token token w env).broadcasts ≠ 0 →
      (approve_token token w env).approveAmount = some (2 ^ 256 - 1) := by
  by_cases hn : token.native
  · simp [approve_token, hn]
  · rcases ha : env.allowance with _ | al
    · simp [approve_token, hn, ha]
    · by_cases hc : check_allowance al w
      · simp [approve_token, hn, ha, hc]
      · rcases hg : env.gasParams with _ | g <;>
        rcases hno : env.nonce with _ | no <;>
        rcases he : env.estimateGas with _ | es <;>
        rcases hs : env.sendHash with _ | sh <;>
        rcases hr : env.receiptStatus with _ | st <;>
        simp [approve_token, hn, ha, hc, hg, hno, he, hs, hr] <;>
        split <;> simp

theorem approve_usdc_bc_amount (w : ℤ) (env : ApproveEnv) :
    (approve_usdc w env).broadcasts ≠ 0 →
      (approve_usdc w env).approveAmount = some (2 ^ 256 - 1) := by
  rcases ha : env.allowance with _ | al
  · simp [approve_usdc, ha]
  · by_cases hc : w ≤ (al : ℤ)
    · simp [approve_usdc, ha, hc]
    · rcases hg : env.gasParams with _ | g <;>
      rcases hno : env.nonce with _ | no <;>
      rcases hs : env.sendHash with _ | sh <;>
      rcases hr : env.receiptStatus with _ | st <;>
      simp [approve_usdc, ha, hc, hg, hno, hs, hr] <;>
      split <;> simp

theorem approve_token_sufficient (token : Token) (w : ℤ) (env : ApproveEnv) (al : Nat)
    (ha : env.allowance = some al) (hw : w ≤ (al : ℤ)) :
    (approve_token token w env).broadcasts = 0 := by
  by_cases hn : token.native
  · simp [approve_token, hn]
  · have hc : check_allowance al w = true := by simp [check_allowance, hw]
    simp [approve_token, hn, ha, hc]

theorem minOut_formula (eo : Nat) (sl : ℚ) :
    pyMul (mkRat (Int.ofNat eo) 1) (pySub (mkRat 1 1) (pyDivN sl 100))
      = (eo : ℚ) * (1 - sl / 100) := by
  rw [pyMul_eq, pySub_eq, pyDivN_eq, Rat.mkRat_one, Rat.mkRat_one,
    Int.ofNat_eq_natCast]
  push_cast
  ring

theorem toHex_ne_empty (n : Nat) : toHex n ≠ "" := by
  intro h
  have hl := congrArg String.length h
  rw [toHex, String.length_append] at hl
  have h2 : "0x".length = 2 := rfl
  have h0 : "".length = 0 := rfl
  omega

theorem run_attempt_success (tf tt : String) (amount sl : ℚ) (e : AttemptEnv)
    (o : Outcome) (h : (run_attempt tf tt amount sl e).result = .success o) :
    o.success = true ∧ o.error = none ∧ (∃ hsh, o.tx_hash = some (toHex hsh)) ∧
      e.receiptStatus = some 1 := by
  rcases hA : AVAILABLE_TOKENS tf with _ | ta
  · rcases hB : AVAILABLE_TOKENS tt with _ | tb <;> simp [run_attempt, hA, hB] at h
  rcases hB : AVAILABLE_TOKENS tt with _ | tb
  · simp [run_attempt, hA, hB] at h
  simp only [run_attempt, hA, hB] at h
  by_cases hb : e.balance < amount
  · simp [hb] at h
  rw [if_neg hb] at h
  rcases hq : e.quote with _ | amounts
  · simp [hq] at h
  rcases hl : amounts.getLast? with _ | eo
  · simp [hq, hl] at h
  simp only [hq, hl] at h
  by_cases hnat : ta.native = true
  · simp only [hnat, eq_self_iff_true, if_true] at h
    rcases hg : e.gasParams with _ | gp
    · simp [hg] at h
    rcases hn2 : e.nonce with _ | nn
    · simp [hg, hn2] at h
    rcases hes : e.estimateGas with _ | es
    · simp [hg, hn2, hes] at h
    rcases hsh : e.sendHash with _ | hv
    · simp [hg, hn2, hes, hsh] at h
    rcases hrs : e.receiptStatus with _ | st
    · simp [hg, hn2, hes, hsh, hrs] at h
    by_cases hst : st = 1
    · simp only [hg, hn2, hes, hsh, hrs] at h
      rw [if_pos hst] at h
      simp only [AttemptResult.success.injEq] at h
      subst h
      exact ⟨rfl, rfl, ⟨_, rfl⟩, by rw [hst]⟩
    · simp [hg, hn2, hes, hsh, hrs, hst] at h
  · simp only [Bool.not_eq_true] at hnat
    simp only [hnat, Bool.false_eq_true, if_false] at h
    rcases hap : (approve_token ta (pyInt (pyMul amount (pow10 ta.decimals)))
        e.approveEnv).result with msg | v
    · simp only [hap] at h
      exact absurd h (by simp)
    simp only [hap] at h
    rcases hg : e.gasParams with _ | gp
    · simp [hg] at h
    rcases hn2 : e.nonce with _ | nn
    · simp [hg, hn2] at h
    rcases hes : e.estimateGas with _ | es
    · simp [hg, hn2, hes] at h
    rcases hsh : e.sendHash with _ | hv
    · simp [hg, hn2, hes, hsh] at h
    rcases hrs : e.receiptStatus with _ | st
    · simp [hg, hn2, hes, hsh, hrs] at h
    by_cases hst : st = 1
    · simp only [hg, hn2, hes, hsh, hrs] at h
      rw [if_pos hst] at h
      simp only [AttemptResult.success.injEq] at h
      subst h
      exact ⟨rfl, rfl, ⟨_, rfl⟩, by rw [hst]⟩
    · simp [hg, hn2, hes, hsh, hrs, hst] at h

theorem run_attempt_reverted (tf tt : String) (amount sl : ℚ) (e : AttemptEnv)
    (h : (run_attempt tf tt amount sl e).result = .reverted) :
    ∃ s, e.receiptStatus = some s ∧ s ≠ 1 := by
  rcases hA : AVAILABLE_TOKENS tf with _ | ta
  · rcases hB : AVAILABLE_TOKENS tt with _ | tb <;> simp [run_attempt, hA, hB] at h
  rcases hB : AVAILABLE_TOKENS tt with _ | tb
  · simp [run_attempt, hA, hB] at h
  simp only [run_attempt, hA, hB] at h
  by_cases hb : e.balance < amount
  · simp [hb] at h
  rw [if_neg hb] at h
  rcases hq : e.quote with _ | amounts
  · simp [hq] at h
  rcases hl : amounts.getLast? with _ | eo
  · simp [hq, hl] at h
  simp only [hq, hl] at h
  by_cases hnat : ta.native = true
  · simp only [hnat, eq_self_iff_true, if_true] at h
    rcases hg : e.gasParams with _ | gp
    · simp [hg] at h
    rcases hn2 : e.nonce with _ | nn
    · simp [hg, hn2] at h
    rcases hes : e.estimateGas with _ | es
    · simp [hg, hn2, hes] at h
    rcases hsh : e.sendHash with _ | hv
    · simp [hg, hn2, hes, hsh] at h
    rcases hrs : e.receiptStatus with _ | st
    · simp [hg, hn2, hes, hsh, hrs] at h
    by_cases hst : st = 1
    · subst hst
      simp [hg, hn2, hes, hsh, hrs] at h
    · exact ⟨st, rfl, hst⟩
  · simp only [Bool.not_eq_true] at hnat
    simp only [hnat, Bool.false_eq_true, if_false] at h
    rcases hap : (approve_token ta (pyInt (pyMul amount (pow10 ta.decimals)))
        e.approveEnv).result with msg | v
    · simp only [hap] at h
      exact absurd h (by simp)
    simp only [hap] at h
    rcases hg : e.gasParams with _ | gp
    · simp [hg] at h
    rcases hn2 : e.nonce with _ | nn
    · simp [hg, hn2] at h
    rcases hes : e.estimateGas with _ | es
    · simp [hg, hn2, hes] at h
    rcases hsh : e.sendHash with _ | hv
    · simp [hg, hn2, hes, hsh] at h
    rcases hrs : e.receiptStatus with _ | st
    · simp [hg, hn2, hes, hsh, hrs] at h
    by_cases hst : st = 1
    · subst hst
      simp [hg, hn2, hes, hsh, hrs] at h
    · exact ⟨st, rfl, hst⟩

theorem run_attempt_balance_short (tf tt : String) (amount sl : ℚ) (e : AttemptEnv)
    (hb : e.balance < amount) :
    (run_attempt tf tt amount sl e).broadcasts = 0 ∧
      ∃ msg, (run_attempt tf tt amount sl e).result = .exc msg := by
  rcases hA : AVAILABLE_TOKENS tf with _ | ta
  · rcases hB : AVAILABLE_TOKENS tt with _ | tb <;>
      simp [run_attempt, hA, hB]
  rcases hB : AVAILABLE_TOKENS tt with _ | tb
  · simp [run_attempt, hA, hB]
  simp only [run_attempt, hA, hB]
  rw [if_pos hb]
  exact ⟨rfl, _, rfl⟩

theorem run_attempt_minOut (tf tt : String) (amount sl : ℚ) (e : AttemptEnv) (m : ℤ)
    (h : (run_attempt tf tt amount sl e).swapMinOut = some m) :
    ∃ amounts eo, e.quote = some amounts ∧ amounts.getLast? = some eo ∧
      m = pyInt ((eo : ℚ) * (1 - sl / 100)) := by
  rcases hA : AVAILABLE_TOKENS tf with _ | ta
  · rcases hB : AVAILABLE_TOKENS tt with _ | tb <;> simp [run_attempt, hA, hB] at h
  rcases hB : AVAILABLE_TOKENS tt with _ | tb
  · simp [run_attempt, hA, hB] at h
  simp only [run_attempt, hA, hB] at h
  by_cases hb : e.balance < amount
  · simp [hb] at h
  rw [if_neg hb] at h
  rcases hq : e.quote with _ | amounts
  · simp [hq] at h
  rcases hl : amounts.getLast? with _ | eo
  · simp [hq, hl] at h
  simp only [hq, hl] at h
  refine ⟨amounts, eo, rfl, hl, ?_⟩
  by_cases hnat : ta.native = true
  · simp only [hnat, eq_self_iff_true, if_true] at h
    rcases hg : e.gasParams with _ | gp
    · simp [hg] at h
    simp only [hg] at h
    rcases hn2 : e.nonce with _ | nn
    · simp only [hn2, Option.some.injEq] at h
      subst h
      exact congrArg pyInt (minOut_formula _ _)
    simp only [hn2] at h
    rcases hes : e.estimateGas with _ | es
    · simp only [hes, Option.some.injEq] at h
      subst h
      exact congrArg pyInt (minOut_formula _ _)
    simp only [hes] at h
    rcases hsh : e.sendHash with _ | hv
    · simp only [hsh, Option.some.injEq] at h
      subst h
      exact congrArg pyInt (minOut_formula _ _)
    simp only [hsh] at h
    rcases hrs : e.receiptStatus with _ | st
    · simp only [hrs, Option.some.injEq] at h
      subst h
      exact congrArg pyInt (minOut_formula _ _)
    simp only [hrs] at h
    by_cases hst : st = 1
    · rw [if_pos hst] at h
      simp only [Option.some.injEq] at h
      subst h
      exact congrArg pyInt (minOut_formula _ _)
    · rw [if_neg hst] at h
      simp only [Option.some.injEq] at h
      subst h
      exact congrArg pyInt (minOut_formula _ _)
  · simp only [Bool.not_eq_true] at hnat
    simp only [hnat, Bool.false_eq_true, if_false] at h
    rcases hap : (approve_token ta (pyInt (pyMul amount (pow10 ta.decimals)))
        e.approveEnv).result with msg | v
    · simp [hap] at h
    simp only [hap] at h
    rcases hg : e.gasParams with _ | gp
    · simp [hg] at h
    simp only [hg] at h
    rcases hn2 : e.nonce with _ | nn
    · simp only [hn2, Option.some.injEq] at h
      subst h
      exact congrArg pyInt (minOut_formula _ _)
    simp only [hn2] at h
    rcases hes : e.estimateGas with _ | es
    · simp only [hes, Option.some.injEq] at h
      subst h
      exact congrArg pyInt (minOut_formula _ _)
    simp only [hes] at h
    rcases hsh : e.sendHash with _ | hv
    · simp only [hsh, Option.some.injEq] at h
      subst h
      exact congrArg pyInt (minOut_formula _ _)
    simp only [hsh] at h
    rcases hrs : e.receiptStatus with _ | st
    · simp only [hrs, Option.some.injEq] at h
      subst h
      exact congrArg pyInt (minOut_formula _ _)
    simp only [hrs] at h
    by_cases hst : st = 1
    · rw [if_pos hst] at h
      simp only [Option.some.injEq] at h
      subst h
      exact congrArg pyInt (minOut_formula _ _)
    · rw [if_neg hst] at h
      simp only [Option.some.injEq] at h
      subst h
      exact congrArg pyInt (minOut_formula _ _)

theorem approve_token_ok_insufficient (token : Token) (w : ℤ) (env : ApproveEnv)
    (v : Option String) (al : Nat)
    (hn : token.native = false) (ha : env.allowance = some al)
    (hc : check_allowance al w = false)
    (hok : (approve_token token w env).result = .ok v) :
    (approve_token token w env).broadcasts = 1 ∧
      (approve_token token w env).awaitedReceipt = true := by
  rcases hg : env.gasParams with _ | gp
  · simp [approve_token, hn, ha, hc, hg] at hok
  rcases hno : env.nonce with _ | no
  · simp [approve_token, hn, ha, hc, hg, hno] at hok
  rcases he : env.estimateGas with _ | es
  · simp [approve_token, hn, ha, hc, hg, hno, he] at hok
  rcases hs : env.sendHash with _ | sh
  · simp [approve_token, hn, ha, hc, hg, hno, he, hs] at hok
  rcases hr : env.receiptStatus with _ | st
  · simp [approve_token, hn, ha, hc, hg, hno, he, hs, hr] at hok
  by_cases hst : st = 1
  · simp [approve_token, hn, ha, hc, hg, hno, he, hs, hr, hst]
  · simp [approve_token, hn, ha, hc, hg, hno, he, hs, hr, hst]

theorem run_attempt_native_no_approve (tf tt : String) (amount sl : ℚ)
    (e : AttemptEnv) (ta : Token)
    (hA : AVAILABLE_TOKENS tf = some ta) (hnat : ta.native = true) :
    (run_attempt tf tt amount sl e).approveBroadcast = false := by
  rcases hB : AVAILABLE_TOKENS tt with _ | tb
  · simp [run_attempt, hA, hB]
  simp only [run_attempt, hA, hB]
  by_cases hb : e.balance < amount
  · simp [hb]
  rw [if_neg hb]
  rcases hq : e.quote with _ | amounts
  · simp [hq]
  rcases hl : amounts.getLast? with _ | eo
  · simp [hq, hl]
  simp only [hq, hl]
  simp only [hnat, eq_self_iff_true, if_true]
  rcases hg : e.gasParams with _ | gp
  · simp [hg]
  rcases hn2 : e.nonce with _ | nn
  · simp [hg, hn2]
  rcases hes : e.estimateGas with _ | es
  · simp [hg, hn2, hes]
  rcases hsh : e.sendHash with _ | hv
  · simp [hg, hn2, hes, hsh]
  rcases hrs : e.receiptStatus with _ | st
  · simp [hg, hn2, hes, hsh, hrs]
  by_cases hst : st = 1
  · simp [hg, hn2, hes, hsh, hrs, hst]
  · simp [hg, hn2, hes, hsh, hrs, hst]

theorem run_attempt_sufficient_no_approve (tf tt : String) (amount sl : ℚ)
    (e : AttemptEnv) (ta : Token) (al : Nat)
    (hA : AVAILABLE_TOKENS tf = some ta) (hnat : ta.native = false)
    (ha : e.approveEnv.allowance = some al)
    (hsuff : pyInt (pyMul amount (pow10 ta.decimals)) ≤ (al : ℤ)) :
    (run_attempt tf tt amount sl e).approveBroadcast = false := by
  have hap : (approve_token ta (pyInt (pyMul amount (pow10 ta.decimals)))
      e.approveEnv).broadcasts = 0 :=
    approve_token_sufficient _ _ _ al ha hsuff
  rcases hB : AVAILABLE_TOKENS tt with _ | tb
  · simp [run_attempt, hA, hB]
  simp only [run_attempt, hA, hB]
  by_cases hb : e.balance < amount
  · simp [hb]
  rw [if_neg hb]
  rcases hq : e.quote with _ | amounts
  · simp [hq]
  rcases hl : amounts.getLast? with _ | eo
  · simp [hq, hl]
  simp only [hq, hl]
  simp only [hnat, Bool.false_eq_true, if_false]
  rcases hapr : (approve_token ta (pyInt (pyMul amount (pow10 ta.decimals)))
      e.approveEnv).result with msg | v
  · simp [hapr, hap]
  simp only [hapr]
  rcases hg : e.gasParams with _ | gp
  · simp [hg, hap]
  rcases hn2 : e.nonce with _ | nn
  · simp [hg, hn2, hap]
  rcases hes : e.estimateGas with _ | es
  · simp [hg, hn2, hes, hap]
  rcases hsh : e.sendHash with _ | hv
  · simp [hg, hn2, hes, hsh, hap]
  rcases hrs : e.receiptStatus with _ | st
  · simp [hg, hn2, hes, hsh, hrs, hap]
  by_cases hst : st = 1
  · simp [hg, hn2, hes, hsh, hrs, hst, hap]
  · simp [hg, hn2, hes, hsh, hrs, hst, hap]

theorem run_attempt_insufficient_approves (tf tt : String) (amount sl : ℚ)
    (e : AttemptEnv) (ta : Token) (al : Nat)
    (hA : AVAILABLE_TOKENS tf = some ta) (hnat : ta.native = false)
    (ha : e.approveEnv.allowance = some al)
    (hins : check_allowance al (pyInt (pyMul amount (pow10 ta.decimals))) = false)
    (h : (run_attempt tf tt amount sl e).result = .reverted ∨
      ∃ o, (run_attempt tf tt amount sl e).result = .success o) :
    (run_attempt tf tt amount sl e).approveBroadcast = true ∧
      (approve_token ta (pyInt (pyMul amount (pow10 ta.decimals)))
          e.approveEnv).broadcasts = 1 ∧
      (approve_token ta (pyInt (pyMul amount (pow10 ta.decimals)))
          e.approveEnv).awaitedReceipt = true := by
  rcases hB : AVAILABLE_TOKENS tt with _ | tb
  · simp [run_attempt, hA, hB] at h
  simp only [run_attempt, hA, hB] at h ⊢
  by_cases hb : e.balance < amount
  · simp [hb] at h
  rw [if_neg hb] at h ⊢
  rcases hq : e.quote with _ | amounts
  · simp [hq] at h
  rcases hl : amounts.getLast? with _ | eo
  · simp [hq, hl] at h
  simp only [hq, hl] at h ⊢
  simp only [hnat, Bool.false_eq_true, if_false] at h ⊢
  rcases hapr : (approve_token ta (pyInt (pyMul amount (pow10 ta.decimals)))
      e.approveEnv).result with msg | v
  · simp [hapr] at h
  obtain ⟨hb1, hb2⟩ := approve_token_ok_insufficient ta
    (pyInt (pyMul amount (pow10 ta.decimals))) e.approveEnv v al hnat ha hins hapr
  simp only [hapr] at h ⊢
  refine ⟨?_, hb1, hb2⟩
  rcases hg : e.gasParams with _ | gp
  · simp [hg] at h
  rcases hn2 : e.nonce with _ | nn
  · simp [hg, hn2] at h
  rcases hes : e.estimateGas with _ | es
  · simp [hg, hn2, hes] at h
  rcases hsh : e.sendHash with _ | hv
  · simp [hg, hn2, hes, hsh] at h
  rcases hrs : e.receiptStatus with _ | st
  · simp [hg, hn2, hes, hsh, hrs] at h
  by_cases hst : st = 1
  · simp [hg, hn2, hes, hsh, hrs, hst, hb1]
  · simp [hg, hn2, hes, hsh, hrs, hst, hb1]

theorem swapGo_all_short (tf tt : String) (amount sl : ℚ) :
    ∀ n (envs : List AttemptEnv), (∀ e ∈ envs, e.balance < amount) →
      (swapGo tf tt amount sl n envs).outcome.success = false ∧
        (swapGo tf tt amount sl n envs).broadcasts = 0 := by
  intro n
  induction n with
  | zero => intro envs _; exact ⟨rfl, rfl⟩
  | succ n ih =>
    intro envs h
    rcases envs with _ | ⟨e, rest⟩
    · exact ⟨rfl, rfl⟩
    obtain ⟨hbc, msg, hres⟩ := run_attempt_balance_short tf tt amount sl e (h e (by simp))
    obtain ⟨ih1, ih2⟩ := ih rest (fun x hx => h x (by simp [hx]))
    simp only [swapGo]
    rw [hres]
    simp [hbc, ih1, ih2]

theorem swapGo_wellformed (tf tt : String) (amount sl : ℚ) :
    ∀ n (envs : List AttemptEnv),
      (swapGo tf tt amount sl n envs).attemptsUsed ≤ n ∧
        ((swapGo tf tt amount sl n envs).outcome.success = false →
          (swapGo tf tt amount sl n envs).outcome.error.isSome = true) := by
  intro n
  induction n with
  | zero => intro envs; exact ⟨le_refl 0, fun _ => rfl⟩
  | succ n ih =>
    intro envs
    rcases envs with _ | ⟨e, rest⟩
    · exact ⟨Nat.zero_le _, fun _ => rfl⟩
    obtain ⟨ih1, ih2⟩ := ih rest
    rcases hres : (run_attempt tf tt amount sl e).result with o | _ | msg
    · have hsucc := run_attempt_success tf tt amount sl e o hres
      simp only [swapGo]
      rw [hres]
      refine ⟨by show 1 ≤ n + 1; omega, ?_⟩
      intro hf
      simp only at hf
      rw [hsucc.1] at hf
      exact absurd hf (by simp)
    · simp only [swapGo]
      rw [hres]
      refine ⟨?_, fun hf => ih2 hf⟩
      show (swapGo tf tt amount sl n rest).attemptsUsed + 1 ≤ n + 1
      omega
    · simp only [swapGo]
      rw [hres]
      refine ⟨?_, fun hf => ih2 hf⟩
      show (swapGo tf tt amount sl n rest).attemptsUsed + 1 ≤ n + 1
      omega

theorem swapGo_no_status1 (tf tt : String) (amount sl : ℚ) :
    ∀ n (envs : List AttemptEnv), (∀ x ∈ envs, x.receiptStatus ≠ some 1) →
      (swapGo tf tt amount sl n envs).outcome.success = false := by
  intro n
  induction n with
  | zero => intro envs _; rfl
  | succ n ih =>
    intro envs h
    rcases envs with _ | ⟨e, rest⟩
    · rfl
    rcases hres : (run_attempt tf tt amount sl e).result with o | _ | msg
    · have hsucc := run_attempt_success tf tt amount sl e o hres
      exact absurd hsucc.2.2.2 (h e (by simp))
    · simp only [swapGo]
      rw [hres]
      exact ih rest (fun x hx => h x (by simp [hx]))
    · simp only [swapGo]
      rw [hres]
      exact ih rest (fun x hx => h x (by simp [hx]))

theorem c_attempt_trace (a : ℚ) (env : CAttemptEnv) :
    (c_attempt_mon_to_usdc a env).routerMinOut = some 0 ∧
      (c_attempt_mon_to_usdc a env).quoteCalls = 0 := by
  rcases hn : env.nonce with _ | nn
  · simp [c_attempt_mon_to_usdc, hn]
  rcases hg : env.gasParams with _ | gp
  · simp [c_attempt_mon_to_usdc, hn, hg]
  rcases hs : env.sendHash with _ | sh
  · simp [c_attempt_mon_to_usdc, hn, hg, hs]
  rcases hr : env.receiptStatus with _ | st
  · simp [c_attempt_mon_to_usdc, hn, hg, hs, hr]
  by_cases hst : st = 1
  · simp [c_attempt_mon_to_usdc, hn, hg, hs, hr, hst]
  · simp [c_attempt_mon_to_usdc, hn, hg, hs, hr, hst]

theorem c_attempt_success (a : ℚ) (env : CAttemptEnv) (o : Outcome)
    (h : (c_attempt_mon_to_usdc a env).result = .success o) :
    o.success = true ∧ (∃ hsh, o.tx_hash = some (toHex hsh)) ∧
      env.receiptStatus = some 1 := by
  rcases hn : env.nonce with _ | nn
  · simp [c_attempt_mon_to_usdc, hn] at h
  rcases hg : env.gasParams with _ | gp
  · simp [c_attempt_mon_to_usdc, hn, hg] at h
  rcases hs : env.sendHash with _ | sh
  · simp [c_attempt_mon_to_usdc, hn, hg, hs] at h
  rcases hr : env.receiptStatus with _ | st
  · simp [c_attempt_mon_to_usdc, hn, hg, hs, hr] at h
  simp only [c_attempt_mon_to_usdc, hn, hg, hs, hr] at h
  by_cases hst : st = 1
  · rw [if_pos hst] at h
    simp only [AttemptResult.success.injEq] at h
    subst h
    exact ⟨rfl, ⟨_, rfl⟩, by rw [hst]⟩
  · rw [if_neg hst] at h
    exact absurd h (by simp)

theorem cSwapGo_no_quote (a : ℚ) :
    ∀ n (envs : List CAttemptEnv),
      (cSwapGo a n envs).quoteCalls = 0 ∧
        ((cSwapGo a n envs).routerMinOut = none ∨
          (cSwapGo a n envs).routerMinOut = some 0) := by
  intro n
  induction n with
  | zero => intro envs; exact ⟨rfl, Or.inl rfl⟩
  | succ n ih =>
    intro envs
    rcases envs with _ | ⟨e, rest⟩
    · exact ⟨rfl, Or.inl rfl⟩
    obtain ⟨hmin, hquote⟩ := c_attempt_trace a e
    obtain ⟨ih1, ih2⟩ := ih rest
    rcases hres : (c_attempt_mon_to_usdc a e).result with o | _ | msg
    · simp only [cSwapGo]
      rw [hres]
      exact ⟨hquote, Or.inr hmin⟩
    · simp only [cSwapGo]
      rw [hres]
      exact ⟨hquote, Or.inr hmin⟩
    · simp only [cSwapGo]
      rw [hres]
      refine ⟨?_, ?_⟩
      · simp [hquote, ih1]
      · simp [hmin]

theorem cSwapGo_no_status1 (a : ℚ) :
    ∀ n (envs : List CAttemptEnv), (∀ x ∈ envs, x.receiptStatus ≠ some 1) →
      (cSwapGo a n envs).outcome.success = false := by
  intro n
  induction n with
  | zero => intro envs _; rfl
  | succ n ih =>
    intro envs h
    rcases envs with _ | ⟨e, rest⟩
    · rfl
    rcases hres : (c_attempt_mon_to_usdc a e).result with o | _ | msg
    · have hsucc := c_attempt_success a e o hres
      exact absurd hsucc.2.2 (h e (by simp))
    · simp only [cSwapGo]
      rw [hres]
      rfl
    · simp only [cSwapGo]
      rw [hres]
      exact ih rest (fun x hx => h x (by simp [hx]))

theorem select_none_low (mon usdc : ℚ) (choice : Bool) (percent : ℚ)
    (h1 : mon < mkRat 1 1000) (h2 : usdc < mkRat 1 100) :
    _select_swap_pair mon usdc choice percent = none := by
  simp [_select_swap_pair, h1, h2]

theorem execute_loop_low :
    ∀ envs : List IterEnv,
      (∀ x ∈ envs, x.mon_balance < mkRat 1 1000 ∧ x.usdc_balance < mkRat 1 100) →
      (execute_loop envs).swaps = 0 := by
  intro envs
  induction envs with
  | nil => intro _; rfl
  | cons e rest ih =>
    intro h
    obtain ⟨h1, h2⟩ := h e (by simp)
    have hsel := select_none_low e.mon_balance e.usdc_balance e.choice e.percent h1 h2
    simp only [execute_loop]
    rw [hsel]
    exact ih (fun x hx => h x (by simp [hx]))

/-! ## Claim theorems -/

/-- C9: `get_token_balance` never raises to its caller (it is a total
function of its query environment), and when every one of its 16 query
tries fails it returns `0` — the same value it returns for an account whose
balance is zero, so a persistently unreachable RPC endpoint is
indistinguishable at the call site from a zero balance. -/
theorem c9_balance_query_defaults_to_zero (token : Token) (f : Nat → Option Nat)
    (h : ∀ i, i < 16 → f i = none) :
    get_token_balance token f = 0 ∧
      get_token_balance token f = get_token_balance token (fun _ => some 0) := by
  have h1 : get_token_balance token f = 0 := by
    refine getBalanceGo_all_fail token f 16 0 ?_
    intro k hk
    simpa using h k hk
  have hw : weiToHuman token 0 = 0 := by
    rw [weiToHuman, pyDivN_eq, Rat.mkRat_one]
    simp
  refine ⟨h1, ?_⟩
  rw [h1, get_token_balance]
  simp only [getBalanceGo, hw]

/-- C9 witness: with every query raising, the returned balance is `0`. -/
theorem c9_witness :
    get_token_balance USDC (fun _ => none) = 0 ∧
      get_token_balance USDC (fun _ => none) =
        get_token_balance USDC (fun _ => some 0) :=
  c9_balance_query_defaults_to_zero USDC (fun _ => none) (fun _ _ => rfl)

/-- C10: whenever an approval transaction is broadcast — by `approve_token`
of `crystal_swap/instance.py` or by `approve_usdc` of
`crystal/crystal_swap.py` — the allowance it grants is the unlimited value
`2^256 - 1`, not the pending transfer amount; and once the allowance is
`2^256 - 1`, `approve_token` broadcasts no further approval for any
transfer amount representable in uint256. -/
theorem c10_unlimited_approval (token : Token) (amount_wei amount_wei2 cw : ℤ)
    (env env2 envc : ApproveEnv)
    (hbc : (approve_token token amount_wei env).broadcasts ≠ 0)
    (hcbc : (approve_usdc cw envc).broadcasts ≠ 0)
    (hal : env2.allowance = some (2 ^ 256 - 1))
    (hw2 : amount_wei2 ≤ ((2 ^ 256 - 1 : Nat) : ℤ)) :
    (approve_token token amount_wei env).approveAmount = some (2 ^ 256 - 1) ∧
      (approve_usdc cw envc).approveAmount = some (2 ^ 256 - 1) ∧
      (approve_token token amount_wei2 env2).broadcasts = 0 :=
  ⟨approve_token_bc_amount token amount_wei env hbc,
    approve_usdc_bc_amount cw envc hcbc,
    approve_token_sufficient token amount_wei2 env2 _ hal hw2⟩

/-- C10 witness: a concrete approval run (allowance 0, transfer amount 5)
broadcasts the unlimited approval, and with allowance `2^256 - 1` already
set no approval is broadcast. -/
theorem c10_witness :
    (approve_token USDC 5 ⟨some 0, some 1, some 0, some 50000, some 11, some 1⟩).approveAmount
        = some (2 ^ 256 - 1) ∧
      (approve_usdc 5 ⟨some 0, some 1, some 0, some 50000, some 11, some 1⟩).approveAmount
        = some (2 ^ 256 - 1) ∧
      (approve_token USDC 5 ⟨some (2 ^ 256 - 1), some 1, some 0, some 50000, some 11,
        some 1⟩).broadcasts = 0 :=
  c10_unlimited_approval USDC 5 5 5
    ⟨some 0, some 1, some 0, some 50000, some 11, some 1⟩
    ⟨some (2 ^ 256 - 1), some 1, some 0, some 50000, some 11, some 1⟩
    ⟨some 0, some 1, some 0, some 50000, some 11, some 1⟩
    (by decide) (by decide) rfl (by decide)

/-- C8: with the configured percent range inside `[0, 100]` (and the
balances nonnegative, as balances queried from chain always are), the
amount `_select_swap_pair` chooses — `balance * (percent / 100)` — never
exceeds the balance of the selected source token. -/
theorem c8_amount_within_balance (mon usdc percent : ℚ) (choice : Bool)
    (tf tt : String) (amount : ℚ)
    (hm : 0 ≤ mon) (hu : 0 ≤ usdc) (hp0 : 0 ≤ percent) (hp1 : percent ≤ 100)
    (hsel : _select_swap_pair mon usdc choice percent = some (tf, tt, amount)) :
    amount = (if tf = "MON" then mon else usdc) * (percent / 100) ∧
      amount ≤ (if tf = "MON" then mon else usdc) := by
  have key : ∀ b : ℚ, 0 ≤ b → b * (percent / 100) ≤ b := by
    intro b hb
    calc b * (percent / 100) ≤ b * 1 := by
          refine mul_le_mul_of_nonneg_left ?_ hb
          rw [div_le_one (by norm_num : (0:ℚ) < 100)]
          exact hp1
      _ = b := mul_one b
  simp only [_select_swap_pair] at hsel
  split at hsel
  · exact absurd hsel (by simp)
  · split at hsel
    · split at hsel
      · exact absurd hsel (by simp)
      · simp only [Option.some_inj, Prod.mk.injEq] at hsel
        obtain ⟨h1, h2, h3⟩ := hsel
        subst h1; subst h2; subst h3
        rw [if_pos rfl, pyMul_eq, pyDivN_eq]
        push_cast
        exact ⟨rfl, key mon hm⟩
    · split at hsel
      · exact absurd hsel (by simp)
      · simp only [Option.some_inj, Prod.mk.injEq] at hsel
        obtain ⟨h1, h2, h3⟩ := hsel
        subst h1; subst h2; subst h3
        rw [if_neg (by decide), pyMul_eq, pyDivN_eq]
        push_cast
        exact ⟨rfl, key usdc hu⟩

/-- C8 witness: with balances MON = 2, USDC = 3 and percent = 50 the chosen
amount is half the MON balance and stays within it. -/
theorem c8_witness :
    pyMul (mkRat 2 1) (pyDivN (mkRat 50 1) 100)
        = (if "MON" = "MON" then (mkRat 2 1 : ℚ) else mkRat 3 1) * (mkRat 50 1 / 100) ∧
      pyMul (mkRat 2 1) (pyDivN (mkRat 50 1) 100)
        ≤ (if "MON" = "MON" then (mkRat 2 1 : ℚ) else mkRat 3 1) :=
  c8_amount_within_balance (mkRat 2 1) (mkRat 3 1) (mkRat 50 1) true "MON" "USDC"
    (pyMul (mkRat 2 1) (pyDivN (mkRat 50 1) 100))
    (by decide) (by decide) (by decide) (by decide) (by decide)

/-- C1: for every call to `swap(token_from, token_to, amount)` of
`crystal_swap/instance.py` in which each attempt's queried balance of the
source token is below `amount`, every attempt raises the insufficient-balance
`ValueError` before reaching `send_raw_transaction`, so the call returns a
failure Outcome (`success = false`) and issues zero broadcast calls. -/
theorem c1_insufficient_balance_no_broadcast (attempts : Nat) (tf tt : String)
    (amount sl : ℚ) (envs : List AttemptEnv)
    (h : ∀ e ∈ envs, e.balance < amount) :
    (swap attempts tf tt amount sl envs).outcome.success = false ∧
      (swap attempts tf tt amount sl envs).broadcasts = 0 :=
  swapGo_all_short tf tt amount sl attempts envs h

/-- C1 witness: a concrete swap with balance 1/2 and amount 1 fails with
zero broadcasts. -/
theorem c1_witness :
    (swap 3 "MON" "USDC" (mkRat 1 1) (mkRat 1 2)
        [⟨mkRat 1 2, some [5, 7], ⟨none, none, none, none, none, none⟩,
          some 1, some 0, some 21000, some 3, some 1, 0⟩]).outcome.success = false ∧
      (swap 3 "MON" "USDC" (mkRat 1 1) (mkRat 1 2)
        [⟨mkRat 1 2, some [5, 7], ⟨none, none, none, none, none, none⟩,
          some 1, some 0, some 21000, some 3, some 1, 0⟩]).broadcasts = 0 :=
  c1_insufficient_balance_no_broadcast 3 "MON" "USDC" (mkRat 1 1) (mkRat 1 2)
    [⟨mkRat 1 2, some [5, 7], ⟨none, none, none, none, none, none⟩,
      some 1, some 0, some 21000, some 3, some 1, 0⟩] (by decide)

/-- C2: `swap` of `crystal_swap/instance.py` is a total function of its
environment (every exception inside an attempt is caught by the loop's
`except`, so nothing propagates to the caller); it always returns an
Outcome, a failing Outcome carries an error message, and the number of
attempts used never exceeds `config.SETTINGS.ATTEMPTS`. -/
theorem c2_total_bounded_attempts (attempts : Nat) (tf tt : String)
    (amount sl : ℚ) (envs : List AttemptEnv) :
    (swap attempts tf tt amount sl envs).attemptsUsed ≤ attempts ∧
      ((swap attempts tf tt amount sl envs).outcome.success = false →
        ((swap attempts tf tt amount sl envs).outcome.error).isSome = true) :=
  swapGo_wellformed tf tt amount sl attempts envs

/-- C5: a swap attempt whose awaited receipt has status 1 cannot end in the
revert branch, and when it returns a success Outcome that Outcome has
`success = true` and a non-empty transaction hash; when every attempt's
receipt has status 0 the final Outcome of `swap` has `success = false`
(no exception escapes: the executor is a total function).  The same holds
for the `crystal/crystal_swap.py` variant (`swap_mon_to_usdc`). -/
theorem c5_receipt_status_decides_outcome (tf tt : String) (amount sl aC : ℚ)
    (e : AttemptEnv) (attempts mC : Nat) (envs : List AttemptEnv)
    (cenvs : List CAttemptEnv)
    (h1 : e.receiptStatus = some 1)
    (h2 : ∀ x ∈ envs, x.receiptStatus = some 0)
    (h3 : ∀ x ∈ cenvs, x.receiptStatus = some 0) :
    (run_attempt tf tt amount sl e).result ≠ .reverted ∧
      (∀ o, (run_attempt tf tt amount sl e).result = .success o →
        o.success = true ∧ ∃ s, o.tx_hash = some s ∧ s ≠ "") ∧
      (swap attempts tf tt amount sl envs).outcome.success = false ∧
      (∀ env o, (c_attempt_mon_to_usdc aC env).result = .success o →
        o.success = true ∧ ∃ s, o.tx_hash = some s ∧ s ≠ "") ∧
      (swap_mon_to_usdc mC aC cenvs).outcome.success = false := by
  refine ⟨?_, ?_, ?_, ?_, ?_⟩
  · intro hrev
    obtain ⟨s, hs, hne⟩ := run_attempt_reverted tf tt amount sl e hrev
    rw [h1] at hs
    exact hne (Option.some.inj hs).symm
  · intro o ho
    obtain ⟨hsu, _, ⟨hsh, htx⟩, _⟩ := run_attempt_success tf tt amount sl e o ho
    exact ⟨hsu, toHex hsh, htx, toHex_ne_empty hsh⟩
  · refine swapGo_no_status1 tf tt amount sl attempts envs ?_
    intro x hx
    rw [h2 x hx]
    simp
  · intro env o ho
    obtain ⟨hsu, ⟨hsh, htx⟩, _⟩ := c_attempt_success aC env o ho
    exact ⟨hsu, toHex hsh, htx, toHex_ne_empty hsh⟩
  · refine cSwapGo_no_status1 aC mC cenvs ?_
    intro x hx
    rw [h3 x hx]
    simp

/-- C5 witness: a status-1 environment and a list of status-0 environments
instantiate the theorem. -/
theorem c5_witness :
    (run_attempt "MON" "USDC" (mkRat 1 1) (mkRat 1 2) envOK).result ≠ .reverted ∧
      (∀ o, (run_attempt "MON" "USDC" (mkRat 1 1) (mkRat 1 2) envOK).result
          = .success o → o.success = true ∧ ∃ s, o.tx_hash = some s ∧ s ≠ "") ∧
      (swap 2 "MON" "USDC" (mkRat 1 1) (mkRat 1 2) [envRevert]).outcome.success
        = false ∧
      (∀ env o, (c_attempt_mon_to_usdc (mkRat 1 1) env).result = .success o →
        o.success = true ∧ ∃ s, o.tx_hash = some s ∧ s ≠ "") ∧
      (swap_mon_to_usdc 2 (mkRat 1 1) [cEnvRevert]).outcome.success = false :=
  c5_receipt_status_decides_outcome "MON" "USDC" (mkRat 1 1) (mkRat 1 2)
    (mkRat 1 1) envOK 2 2 [envRevert] [cEnvRevert]
    (by decide) (by decide) (by decide)

/-- C3 (amended): in the `crystal_swap/instance.py` executor, whenever an
attempt builds the router swap call, the `amountOutMin` it passes equals
`int(expected_out * (1 - slippage / 100))` where `expected_out` is the last
element of the `getAmountsOut` quote; the `crystal/crystal_swap.py` variant
issues no quote call at all and always passes the constant `0` as the
minimum output. -/
theorem c3_min_out_amended (tf tt : String) (amount sl aC : ℚ) (e : AttemptEnv)
    (m : ℤ) (nC : Nat) (cenvs : List CAttemptEnv)
    (hm : (run_attempt tf tt amount sl e).swapMinOut = some m) :
    (∃ amounts eo, e.quote = some amounts ∧ amounts.getLast? = some eo ∧
      m = pyInt ((eo : ℚ) * (1 - sl / 100))) ∧
      (cSwapGo aC nC cenvs).quoteCalls = 0 ∧
      ((cSwapGo aC nC cenvs).routerMinOut = none ∨
        (cSwapGo aC nC cenvs).routerMinOut = some 0) :=
  ⟨run_attempt_minOut tf tt amount sl e m hm,
    (cSwapGo_no_quote aC nC cenvs).1, (cSwapGo_no_quote aC nC cenvs).2⟩

/-- C3 counterexample: a broadcast, successful `swap_mon_to_usdc` attempt of
`crystal/crystal_swap.py` passes `0` as the router's minimum output and
issues zero `getAmountsOut` calls, so its minimum output is not the
slippage-reduced quote the claim describes. -/
theorem c3_counterexample :
    (swap_mon_to_usdc 3 (mkRat 1 1) [cEnvOK]).outcome.success = true ∧
      (swap_mon_to_usdc 3 (mkRat 1 1) [cEnvOK]).broadcasts = 1 ∧
      (swap_mon_to_usdc 3 (mkRat 1 1) [cEnvOK]).routerMinOut = some 0 ∧
      (swap_mon_to_usdc 3 (mkRat 1 1) [cEnvOK]).quoteCalls = 0 := by
  decide

/-- C3 witness: with quote `[5, 7]` and slippage `0.5`, the recorded minimum
output of the instance executor is `int(7 * 0.995) = 6`. -/
theorem c3_witness :
    (∃ amounts eo, envRevert.quote = some amounts ∧ amounts.getLast? = some eo ∧
      (6 : ℤ) = pyInt ((eo : ℚ) * (1 - (mkRat 1 2) / 100))) ∧
      (cSwapGo (mkRat 1 1) 1 [cEnvOK]).quoteCalls = 0 ∧
      ((cSwapGo (mkRat 1 1) 1 [cEnvOK]).routerMinOut = none ∨
        (cSwapGo (mkRat 1 1) 1 [cEnvOK]).routerMinOut = some 0) :=
  c3_min_out_amended "MON" "USDC" (mkRat 1 1) (mkRat 1 2) (mkRat 1 1) envRevert
    6 1 [cEnvOK] (by decide)

/-- C4 (amended): when both balances are below their minimum thresholds
(MON < 0.001 and USDC < 0.01) the `crystal/crystal_swap.py` session loop
breaks at that iteration with zero swaps delegated, while the
`crystal_swap/instance.py` session loop does not break — it skips every
such iteration — so it too delegates zero swaps while the balances stay
below the thresholds. -/
theorem c4_amended_low_balance_behavior (e : IterEnv) (rest envs : List IterEnv)
    (h1 : e.mon_balance < mkRat 1 1000) (h2 : e.usdc_balance < mkRat 1 100)
    (hall : ∀ x ∈ envs, x.mon_balance < mkRat 1 1000 ∧
      x.usdc_balance < mkRat 1 100) :
    crystal_execute_loop (e :: rest) = ⟨0, 1⟩ ∧ (execute_loop envs).swaps = 0 := by
  constructor
  · simp [crystal_execute_loop, h1, h2]
  · exact execute_loop_low envs hall

/-- C4 counterexample: with MON = 0.0005 and USDC = 0.005 (both below the
minimums) the `crystal_swap/instance.py` session loop does not terminate at
the first iteration — it runs both scheduled iterations (executing zero
swaps), contradicting immediate termination. -/
theorem c4_counterexample :
    (execute_loop [envLowIter, envLowIter]).iterations = 2 ∧
      (execute_loop [envLowIter, envLowIter]).swaps = 0 ∧
      envLowIter.mon_balance < mkRat 1 1000 ∧
      envLowIter.usdc_balance < mkRat 1 100 := by
  decide

/-- C4 witness: with MON = 0.0005 and USDC = 0.005 the crystal variant stops
after one iteration and both variants execute zero swaps. -/
theorem c4_witness :
    crystal_execute_loop [envLowIter] = ⟨0, 1⟩ ∧
      (execute_loop [envLowIter]).swaps = 0 :=
  c4_amended_low_balance_behavior envLowIter [] [envLowIter]
    (by decide) (by decide) (by decide)

/-- C6 (amended): a native source token never triggers an approval
broadcast; a non-native source with a sufficient allowance does not either;
a non-native source with an insufficient allowance, whose attempt goes on
to broadcast the swap (ending in the revert branch or a success), has
issued exactly one approval broadcast and awaited its receipt beforehand —
but the executor does not require the approval receipt to have status 1
before broadcasting the swap. -/
theorem c6_amended_approval_flow
    (tf1 tt1 tf2 tt2 tf3 tt3 : String) (a1 sl1 a2 sl2 a3 sl3 : ℚ)
    (e1 e2 e3 : AttemptEnv) (ta1 ta2 ta3 : Token) (al2 al3 : Nat)
    (hA1 : AVAILABLE_TOKENS tf1 = some ta1) (hn1 : ta1.native = true)
    (hA2 : AVAILABLE_TOKENS tf2 = some ta2) (hn2 : ta2.native = false)
    (ha2 : e2.approveEnv.allowance = some al2)
    (hs2 : pyInt (pyMul a2 (pow10 ta2.decimals)) ≤ (al2 : ℤ))
    (hA3 : AVAILABLE_TOKENS tf3 = some ta3) (hn3 : ta3.native = false)
    (ha3 : e3.approveEnv.allowance = some al3)
    (hi3 : check_allowance al3 (pyInt (pyMul a3 (pow10 ta3.decimals))) = false)
    (hr3 : (run_attempt tf3 tt3 a3 sl3 e3).result = .reverted ∨
      ∃ o, (run_attempt tf3 tt3 a3 sl3 e3).result = .success o) :
    (run_attempt tf1 tt1 a1 sl1 e1).approveBroadcast = false ∧
      (run_attempt tf2 tt2 a2 sl2 e2).approveBroadcast = false ∧
      (run_attempt tf3 tt3 a3 sl3 e3).approveBroadcast = true ∧
      (approve_token ta3 (pyInt (pyMul a3 (pow10 ta3.decimals)))
          e3.approveEnv).broadcasts = 1 ∧
      (approve_token ta3 (pyInt (pyMul a3 (pow10 ta3.decimals)))
          e3.approveEnv).awaitedReceipt = true := by
  obtain ⟨hb1, hb2, hb3⟩ := run_attempt_insufficient_approves tf3 tt3 a3 sl3 e3
    ta3 al3 hA3 hn3 ha3 hi3 hr3
  exact ⟨run_attempt_native_no_approve tf1 tt1 a1 sl1 e1 ta1 hA1 hn1,
    run_attempt_sufficient_no_approve tf2 tt2 a2 sl2 e2 ta2 al2 hA2 hn2 ha2 hs2,
    hb1, hb2, hb3⟩

/-- C6 counterexample: in `crystal_swap/instance.py` the return value of
`approve_token` is ignored — here the approval transaction's receipt has
status 0 (the approval reverted, so it was not confirmed), yet the swap
transaction is still broadcast and succeeds, contradicting the claim that
the approval is confirmed with status 1 before the swap broadcast. -/
theorem c6_counterexample :
    (run_attempt "USDC" "MON" (mkRat 1 1) (mkRat 1 2)
        envApproveRevert).result.isSuccess = true ∧
      (run_attempt "USDC" "MON" (mkRat 1 1) (mkRat 1 2)
        envApproveRevert).broadcasts = 2 ∧
      (run_attempt "USDC" "MON" (mkRat 1 1) (mkRat 1 2)
        envApproveRevert).approveBroadcast = true ∧
      envApproveRevert.approveEnv.receiptStatus = some 0 := by
  decide

/-- C6 witness: MON as source issues no approval; USDC with unlimited
allowance issues no approval; USDC with allowance 0 issues one approval
(receipt awaited) before its swap attempt reaches the revert branch. -/
theorem c6_witness :
    (run_attempt "MON" "USDC" (mkRat 1 1) (mkRat 1 2) envOK).approveBroadcast
        = false ∧
      (run_attempt "USDC" "MON" (mkRat 1 1) (mkRat 1 2)
        envBigAllowance).approveBroadcast = false ∧
      (run_attempt "USDC" "MON" (mkRat 1 1) (mkRat 1 2)
        envApproveThenRevert).approveBroadcast = true ∧
      (approve_token USDC (pyInt (pyMul (mkRat 1 1) (pow10 USDC.decimals)))
          envApproveThenRevert.approveEnv).broadcasts = 1 ∧
      (approve_token USDC (pyInt (pyMul (mkRat 1 1) (pow10 USDC.decimals)))
          envApproveThenRevert.approveEnv).awaitedReceipt = true :=
  c6_amended_approval_flow "MON" "USDC" "USDC" "MON" "USDC" "MON"
    (mkRat 1 1) (mkRat 1 2) (mkRat 1 1) (mkRat 1 2) (mkRat 1 1) (mkRat 1 2)
    envOK envBigAllowance envApproveThenRevert MON USDC USDC
    (2 ^ 256 - 1) 0
    rfl rfl rfl rfl rfl (by decide) rfl rfl rfl (by decide)
    (Or.inl (by decide))

/-- C7 (amended): in `crystal_swap/instance.py` only an attempt that fails
by a caught exception sleeps the randomized backoff before the next attempt
(when further attempts remain); an attempt that fails by an on-chain revert
`continue`s to the next attempt immediately, with no sleep; in
`crystal/crystal_swap.py` a revert ends the retry loop at once with the
"Transaction reverted" failure outcome. -/
theorem c7_amended_backoff_only_on_exception (tf tt : String) (amount sl aC : ℚ)
    (n m : Nat) (eE eR : AttemptEnv) (rest rest2 : List AttemptEnv) (msg : String)
    (ce : CAttemptEnv) (crest : List CAttemptEnv)
    (hexc : (run_attempt tf tt amount sl eE).result = .exc msg)
    (hrev : (run_attempt tf tt amount sl eR).result = .reverted)
    (hcrev : (c_attempt_mon_to_usdc aC ce).result = .reverted)
    (hn : 0 < n) :
    (swapGo tf tt amount sl (n + 1) (eE :: rest)).sleeps
        = 1 + (swapGo tf tt amount sl n rest).sleeps ∧
      (swapGo tf tt amount sl (n + 1) (eR :: rest2)).sleeps
        = (swapGo tf tt amount sl n rest2).sleeps ∧
      (cSwapGo aC (m + 1) (ce :: crest)).attemptsUsed = 1 ∧
      (cSwapGo aC (m + 1) (ce :: crest)).outcome = revertedOutcome := by
  refine ⟨?_, ?_, ?_, ?_⟩
  · simp only [swapGo]
    rw [hexc]
    simp [hn]
  · simp only [swapGo]
    rw [hrev]
  · simp only [cSwapGo]
    rw [hcrev]
  · simp only [cSwapGo]
    rw [hcrev]

/-- C7 counterexample: a swap of `crystal_swap/instance.py` whose first
attempt fails by an on-chain revert (receipt status 0) and which has a
second attempt available performs zero backoff sleeps, contradicting the
claim that every non-final failing attempt sleeps before the retry. -/
theorem c7_counterexample :
    (swap 2 "MON" "USDC" (mkRat 1 1) (mkRat 1 2)
        [envRevert, envRevert]).sleeps = 0 ∧
      (run_attempt "MON" "USDC" (mkRat 1 1) (mkRat 1 2) envRevert).result
        = .reverted ∧
      (swap 2 "MON" "USDC" (mkRat 1 1) (mkRat 1 2)
        [envRevert, envRevert]).attemptsUsed = 2 ∧
      (swap 2 "MON" "USDC" (mkRat 1 1) (mkRat 1 2)
        [envRevert, envRevert]).outcome.success = false := by
  decide

/-- C7 witness: an exception-failing attempt with one further attempt left
sleeps once; a reverted attempt adds no sleep; a crystal-variant revert
ends the loop after one attempt. -/
theorem c7_witness :
    (swapGo "MON" "USDC" (mkRat 1 1) (mkRat 1 2) (1 + 1) (envExc :: [])).sleeps
        = 1 + (swapGo "MON" "USDC" (mkRat 1 1) (mkRat 1 2) 1 []).sleeps ∧
      (swapGo "MON" "USDC" (mkRat 1 1) (mkRat 1 2) (1 + 1)
          (envRevert :: [])).sleeps
        = (swapGo "MON" "USDC" (mkRat 1 1) (mkRat 1 2) 1 []).sleeps ∧
      (cSwapGo (mkRat 1 1) (1 + 1) (cEnvRevert :: [])).attemptsUsed = 1 ∧
      (cSwapGo (mkRat 1 1) (1 + 1) (cEnvRevert :: [])).outcome
        = revertedOutcome :=
  c7_amended_backoff_only_on_exception "MON" "USDC" (mkRat 1 1) (mkRat 1 2)
    (mkRat 1 1) 1 1 envExc envRevert [] [] "getAmountsOut raised" cEnvRevert []
    (by decide) (by decide) (by decide) (by decide)

end CrystalSwapModel
